import Mathlib

/-!
Shallow embedding of the MoviePilot Plex gateway module
(`app/modules/plex/__init__.py`) and the user-schema JSON validator
(`app/schemas/user.py`).

The orchestration code in `PlexModule` delegates every backend call to a
`Plex` connection object (class `Plex`, not part of the analysed sources);
each such connection is modelled here as a record of opaque response
functions, one field per capability consumed by the module.  The instance
registry (`_ModuleBase`/`_MediaServerBase`, also outside the analysed
sources) is modelled from the spec as an insertion-ordered association
list keyed by name.

Python truthiness conventions used by the source are made explicit:
an `Option` is falsy iff it is `none`, a string is falsy iff empty, a
list is falsy iff empty.  Python values that may be either `None` or an
empty collection are modelled by a plain list when the code only ever
branches on their truthiness (both cases behave identically there).
-/

namespace MoviePilot

/-- Library descriptor returned by a backend (`schemas.MediaServerLibrary`);
only its presence in a listing matters to the module code. -/
structure Library where
  id : String
deriving DecidableEq, Repr

/-- Media item as returned by a backend (`schemas.MediaServerItem`);
the module only reads `item_id`. -/
structure MediaServerItem where
  item_id : String
deriving DecidableEq, Repr

/-- Per-instance media count record (`schemas.Statistic`). -/
structure Statistic where
  movie_count : Nat
  tv_count : Nat
  episode_count : Nat
deriving DecidableEq, Repr

/-- Canonical webhook event (`schemas.WebhookEventInfo`). -/
structure WebhookEventInfo where
  title : String
  text : String
  image : String
deriving DecidableEq, Repr

/-- Playing / latest item (`schemas.MediaServerPlayItem`). -/
structure MediaServerPlayItem where
  title : String
deriving DecidableEq, Repr

/-- Season summary (`schemas.MediaServerSeasonInfo`). -/
structure MediaServerSeasonInfo where
  season : Nat
  episodes : List Nat
deriving DecidableEq, Repr

/-- Media type enumeration (`schemas.types.MediaType`); the module only
compares against `MOVIE`, every other value takes the TV path. -/
inductive MediaType where
  | movie
  | tv
  | unknown
deriving DecidableEq, Repr

/-- Caller-supplied media description (`app.core.context.MediaInfo`),
restricted to the fields the Plex module reads. -/
structure MediaInfo where
  type : MediaType
  title : Option String
  original_title : Option String
  year : Option String
  tmdb_id : Option Nat
deriving DecidableEq, Repr

/-- Existence answer (`schemas.ExistMediaInfo`). -/
structure ExistMediaInfo where
  type : MediaType
  server : String
  itemid : Option String
  seasons : Option (List (Nat × List Nat))
deriving DecidableEq, Repr

/-- One configured media-server entry (`schemas.MediaServerConf`),
restricted to the fields the module reads. -/
structure MediaServerConf where
  name : String
  type : String
deriving DecidableEq, Repr

/-- A backend Plex connection, modelled by its observable responses.
The class `Plex` is outside the analysed sources, so each capability the
module calls is an opaque field:

* `get_librarys` — libraries listed when probed in the current state;
* `librarys_after_reconnect` — libraries listed when probed right after
  `reconnect()` (the module reconnects inactive servers before probing);
* the remaining fields are the query capabilities, pure functions of
  their arguments.  A Python return value of `None` is `Option.none`;
  a list/dict result that the module only tests for truthiness is a
  plain list, with the empty list covering both `None` and empty. -/
structure Plex where
  is_inactive : Bool
  get_librarys : List Library
  librarys_after_reconnect : List Library
  get_iteminfo : String → Option MediaServerItem
  get_movies : Option String → Option String → Option String → Option Nat → List MediaServerItem
  get_tv_episodes : Option String → Option String → Option String → Option Nat →
    Option String → Option String × List (Nat × List Nat)
  get_medias_count : Option Statistic
  get_webhook_message : String → Option WebhookEventInfo
  get_resume : Nat → List MediaServerPlayItem
  get_latest : Nat → List MediaServerPlayItem
  get_play_url : String → Option String

/-- Modelled from the spec: the instance registry kept by
`_MediaServerBase` (not among the analysed sources).  `instances` is the
name-keyed, insertion-ordered map `_instances`; `configs` is the
insertion-ordered map `_configs` of `MediaServerConf` entries. -/
structure Registry where
  instances : List (String × Plex)
  configs : List MediaServerConf

/-- Modelled from the spec: `get_instance(name)`, O(1) lookup by name in
the registry, absent names give `none`. -/
def get_instance (reg : Registry) (name : String) : Option Plex :=
  (reg.instances.find? fun p => p.1 == name).map Prod.snd

/-- Modelled from the spec: `get_config(name, type)`, lookup of the
configuration registered under `name` with the given service type. -/
def get_config (reg : Registry) (name ty : String) : Option MediaServerConf :=
  reg.configs.find? fun c => c.name == name && c.type == ty

/-- Python truthiness of an optional string (`if source:`):
falsy iff absent or empty. -/
def strTruthy : Option String → Bool
  | Option.none => false
  | some s => s != ""

/-- Libraries a server reports to `test` (lines 34-37): the module
first calls `reconnect()` when the server is inactive, so the probe
sees either the post-reconnect listing or the plain one. -/
def effective_librarys (server : Plex) : List Library :=
  if server.is_inactive then server.librarys_after_reconnect else server.get_librarys

/-- Embeds `PlexModule.test` (lines 28-39): `None` on an empty registry;
otherwise iterate instances, reconnect an inactive one, and fail closed
with a diagnostic on the first instance whose library listing is empty. -/
def test_loop : List (String × Plex) → Option (Bool × String)
  | [] => some (true, "")
  | (name, server) :: rest =>
    if (effective_librarys server).isEmpty then
      some (false, "无法连接Plex服务器：" ++ name)
    else test_loop rest

/-- Entry point of `PlexModule.test`. -/
def test (reg : Registry) : Option (Bool × String) :=
  if reg.instances.isEmpty then Option.none
  else test_loop reg.instances

/-- Fallback sweep of `PlexModule.webhook_parser` (lines 72-80): iterate
configs in order, skip non-plex entries and names without an instance,
return the first truthy decode result. -/
def webhook_message_loop (reg : Registry) (body : String) :
    List MediaServerConf → Option WebhookEventInfo
  | [] => Option.none
  | conf :: rest =>
    if conf.type != "plex" then webhook_message_loop reg body rest
    else
      match get_instance reg conf.name with
      | Option.none => webhook_message_loop reg body rest
      | some server =>
        match server.get_webhook_message body with
        | some result => some result
        | Option.none => webhook_message_loop reg body rest

/-- Embeds `PlexModule.webhook_parser` (lines 54-80).  With a truthy
`source` hint: resolve config then instance by that name, give up with
`none` if either is absent, otherwise decode with that instance only.
Without a hint: run the fallback sweep. -/
def webhook_parse (reg : Registry) (body : String) (source : Option String) :
    Option WebhookEventInfo :=
  if strTruthy source then
    match get_config reg (source.getD "") "plex" with
    | Option.none => Option.none
    | some _ =>
      match get_instance reg (source.getD "") with
      | Option.none => Option.none
      | some server => server.get_webhook_message body
  else
    webhook_message_loop reg body reg.configs

/-- Reference rendering of the spec's webhook fallback rule: the first
successful decode over the plex-typed configs taken in configuration
order, each decoded by the instance registered under the config's name
(a config without an instance decodes to nothing). -/
def webhook_first_decode (reg : Registry) (body : String) : Option WebhookEventInfo :=
  (reg.configs.filter fun c => c.type == "plex").findSome? fun c =>
    (get_instance reg c.name).bind fun s => s.get_webhook_message body

/-- The `itemid` direct lookup of the movie path of `media_exists`
(lines 91-99): attempted only when `itemid` is truthy. -/
def direct_lookup (server : Plex) (itemid : Option String) : Option MediaServerItem :=
  if strTruthy itemid then server.get_iteminfo (itemid.getD "") else Option.none

/-- Embeds the instance loop of `PlexModule.media_exists` (lines 89-131).
Movie path: direct id lookup first, then title search, first hit wins;
TV path: season/episode query, truthy season map wins; a non-matching
instance falls through to the next one. -/
def media_exists_loop (mediainfo : MediaInfo) (itemid : Option String) :
    List (String × Plex) → Option ExistMediaInfo
  | [] => Option.none
  | (name, server) :: rest =>
    if mediainfo.type = MediaType.movie then
      match direct_lookup server itemid with
      | some movie =>
        some { type := MediaType.movie, server := name,
               itemid := some movie.item_id, seasons := Option.none }
      | Option.none =>
        match server.get_movies mediainfo.title mediainfo.original_title
            mediainfo.year mediainfo.tmdb_id with
        | [] => media_exists_loop mediainfo itemid rest
        | movie :: _ =>
          some { type := MediaType.movie, server := name,
                 itemid := some movie.item_id, seasons := Option.none }
    else
      match server.get_tv_episodes mediainfo.title mediainfo.original_title
          mediainfo.year mediainfo.tmdb_id itemid with
      | (item_id, tvs) =>
        if tvs.isEmpty then media_exists_loop mediainfo itemid rest
        else
          some { type := MediaType.tv, server := name,
                 itemid := item_id, seasons := some tvs }

/-- Entry point of `PlexModule.media_exists`. -/
def media_exists (reg : Registry) (mediainfo : MediaInfo) (itemid : Option String) :
    Option ExistMediaInfo :=
  media_exists_loop mediainfo itemid reg.instances

/-- What a single instance reports for `media_exists`: the body of one
iteration of the loop, with "continue" rendered as `none`.  The loop is
proved equal to the first non-`none` value of this function over the
instances in registry order. -/
def instance_match (name : String) (server : Plex) (mediainfo : MediaInfo)
    (itemid : Option String) : Option ExistMediaInfo :=
  if mediainfo.type = MediaType.movie then
    match direct_lookup server itemid with
    | some movie =>
      some { type := MediaType.movie, server := name,
             itemid := some movie.item_id, seasons := Option.none }
    | Option.none =>
      match server.get_movies mediainfo.title mediainfo.original_title
          mediainfo.year mediainfo.tmdb_id with
      | [] => Option.none
      | movie :: _ =>
        some { type := MediaType.movie, server := name,
               itemid := some movie.item_id, seasons := Option.none }
  else
    match server.get_tv_episodes mediainfo.title mediainfo.original_title
        mediainfo.year mediainfo.tmdb_id itemid with
    | (item_id, tvs) =>
      if tvs.isEmpty then Option.none
      else
        some { type := MediaType.tv, server := name,
               itemid := item_id, seasons := some tvs }

/-- Embeds the accumulation loop of `PlexModule.media_statistic`
(lines 144-150) verbatim: the guard tests the accumulator
`media_statistics`, not the just-fetched per-server count. -/
def statistic_go (acc : List (Option Statistic)) : List Plex → List (Option Statistic)
  | [] => acc
  | server :: rest =>
    if acc.isEmpty then statistic_go acc rest
    else statistic_go (acc ++ [server.get_medias_count]) rest

/-- Embeds `PlexModule.media_statistic` (lines 133-150): with a truthy
server name, `None` when the name has no instance, else the loop over
that single instance; otherwise the loop over all instances. -/
def media_statistic (reg : Registry) (server : Option String) :
    Option (List (Option Statistic)) :=
  if strTruthy server then
    match get_instance reg (server.getD "") with
    | Option.none => Option.none
    | some srv => some (statistic_go [] [srv])
  else
    some (statistic_go [] (reg.instances.map Prod.snd))

/-- Embeds `PlexModule.mediaserver_iteminfo` (lines 172-179). -/
def mediaserver_iteminfo (reg : Registry) (server item_id : String) :
    Option MediaServerItem :=
  match get_instance reg server with
  | some srv => srv.get_iteminfo item_id
  | Option.none => Option.none

/-- Embeds `PlexModule.mediaserver_tv_episodes` (lines 181-195). -/
def mediaserver_tv_episodes (reg : Registry) (server item_id : String) :
    Option (List MediaServerSeasonInfo) :=
  match get_instance reg server with
  | Option.none => Option.none
  | some srv =>
    match srv.get_tv_episodes Option.none Option.none Option.none Option.none
        (some item_id) with
    | (_, seasoninfo) =>
      if seasoninfo.isEmpty then some []
      else some (seasoninfo.map fun p => { season := p.1, episodes := p.2 })

/-- Embeds `PlexModule.mediaserver_playing` (lines 197-204). -/
def mediaserver_playing (reg : Registry) (server : String) (count : Nat) :
    List MediaServerPlayItem :=
  match get_instance reg server with
  | Option.none => []
  | some srv => srv.get_resume count

/-- Embeds `PlexModule.mediaserver_latest` (lines 206-213). -/
def mediaserver_latest (reg : Registry) (server : String) (count : Nat) :
    List MediaServerPlayItem :=
  match get_instance reg server with
  | Option.none => []
  | some srv => srv.get_latest count

/-- Embeds `PlexModule.mediaserver_play_url` (lines 215-222). -/
def mediaserver_play_url (reg : Registry) (server item_id : String) :
    Option String :=
  match get_instance reg server with
  | Option.none => Option.none
  | some srv => srv.get_play_url item_id

/-- A Python value, as far as `UserBase.parse_json_fields`
(`app/schemas/user.py`, lines 26-35) can observe it. -/
inductive PyValue where
  | pynone
  | pybool (b : Bool)
  | pyint (n : Int)
  | pystr (s : String)
  | pylist (xs : List PyValue)
  | pydict (entries : List (String × PyValue))

/-- Python truthiness of a `PyValue` (`if value:`). -/
def truthy : PyValue → Bool
  | PyValue.pynone => false
  | PyValue.pybool b => b
  | PyValue.pyint n => n != 0
  | PyValue.pystr s => s != ""
  | PyValue.pylist xs => !xs.isEmpty
  | PyValue.pydict xs => !xs.isEmpty

/-- Whether a `PyValue` is a dict (`isinstance(value, dict)`). -/
def isPyDict : PyValue → Bool
  | PyValue.pydict _ => true
  | _ => false

/-- Whether a `PyValue` is a string (`isinstance(value, str)`). -/
def isPyStr : PyValue → Bool
  | PyValue.pystr _ => true
  | _ => false

/-- Embeds `UserBase.parse_json_fields` (`app/schemas/user.py`,
lines 26-35), parameterised by the stdlib parser `json.loads` as an
oracle: `loads s = some v` when parsing succeeds with value `v`, and
`none` when it raises `JSONDecodeError`.  A truthy string is parsed,
with a parse failure yielding the empty dict; any other truthy value is
returned unchanged; a falsy value yields the empty dict. -/
def parse_json_fields (loads : String → Option PyValue) (value : PyValue) : PyValue :=
  if truthy value then
    match value with
    | PyValue.pystr s =>
      match loads s with
      | some v => v
      | Option.none => PyValue.pydict []
    | v => v
  else PyValue.pydict []

/-! ### Concrete fixtures used by witnesses and counterexamples -/

/-- A backend connection that answers every query negatively. -/
def plexSilent : Plex where
  is_inactive := false
  get_librarys := []
  librarys_after_reconnect := []
  get_iteminfo := fun _ => Option.none
  get_movies := fun _ _ _ _ => []
  get_tv_episodes := fun _ _ _ _ _ => (Option.none, [])
  get_medias_count := Option.none
  get_webhook_message := fun _ => Option.none
  get_resume := fun _ => []
  get_latest := fun _ => []
  get_play_url := fun _ => Option.none

/-- A backend connection holding one movie (direct id `42` resolves to
item `m42`, the title search yields items `m1`, `m2`), a non-empty count
record, one library, and a decodable webhook payload. -/
def plexRich : Plex where
  is_inactive := false
  get_librarys := [{ id := "lib1" }]
  librarys_after_reconnect := [{ id := "lib1" }]
  get_iteminfo := fun i => if i == "42" then some { item_id := "m42" } else Option.none
  get_movies := fun _ _ _ _ => [{ item_id := "m1" }, { item_id := "m2" }]
  get_tv_episodes := fun _ _ _ _ _ => (some "tv9", [(1, [1, 2]), (2, [1])])
  get_medias_count := some { movie_count := 10, tv_count := 5, episode_count := 100 }
  get_webhook_message := fun _ =>
    some { title := "played", text := "t", image := "i" }
  get_resume := fun _ => [{ title := "resume1" }]
  get_latest := fun _ => [{ title := "latest1" }]
  get_play_url := fun i => some ("plex://play/" ++ i)

/-- The empty registry. -/
def regEmpty : Registry where
  instances := []
  configs := []

/-- A registry with the single instance `A`, with content and a count
record, and a matching plex config entry. -/
def regRich : Registry where
  instances := [("A", plexRich)]
  configs := [{ name := "A", type := "plex" }]

/-- A registry with the single instance `A` that cannot list any
library. -/
def regSilent : Registry where
  instances := [("A", plexSilent)]
  configs := [{ name := "A", type := "plex" }]

/-- A movie-typed media description. -/
def miMovie : MediaInfo where
  type := MediaType.movie
  title := some "Nightfall"
  original_title := Option.none
  year := some "2021"
  tmdb_id := some 555

/-- A model of `json.loads` at the inputs the witnesses use: the
documented stdlib behaviour on the literal `[1,2]`, failure elsewhere. -/
def loadsDemo : String → Option PyValue := fun s =>
  if s == "[1,2]" then some (PyValue.pylist [PyValue.pyint 1, PyValue.pyint 2])
  else Option.none

/-! ### Helper lemmas -/

/-- The `media_exists` instance loop returns the first non-`none` answer
of `instance_match` along the list. -/
lemma media_exists_loop_eq (mediainfo : MediaInfo) (itemid : Option String) :
    ∀ l : List (String × Plex),
      media_exists_loop mediainfo itemid l =
        l.findSome? fun p => instance_match p.1 p.2 mediainfo itemid := by
  intro l
  induction l with
  | nil => rfl
  | cons hd tl ih =>
    obtain ⟨name, server⟩ := hd
    rw [List.findSome?]
    by_cases hty : mediainfo.type = MediaType.movie
    · rcases hdir : direct_lookup server itemid with _ | movie
      · rcases hmov : server.get_movies mediainfo.title mediainfo.original_title
            mediainfo.year mediainfo.tmdb_id with _ | ⟨m, ms⟩
        · simp [media_exists_loop, instance_match, hty, hdir, hmov, ih]
        · simp [media_exists_loop, instance_match, hty, hdir, hmov]
      · simp [media_exists_loop, instance_match, hty, hdir]
    · rcases htv : server.get_tv_episodes mediainfo.title mediainfo.original_title
          mediainfo.year mediainfo.tmdb_id itemid with ⟨item_id, tvs⟩
      by_cases hemp : tvs.isEmpty
      · simp [media_exists_loop, instance_match, hty, htv, hemp, ih]
      · simp [media_exists_loop, instance_match, hty, htv, hemp]

/-- A positive `instance_match` answer carries the queried instance's
own name in its `server` field. -/
lemma instance_match_server_eq (name : String) (server : Plex)
    (mediainfo : MediaInfo) (itemid : Option String) (r : ExistMediaInfo)
    (h : instance_match name server mediainfo itemid = some r) :
    r.server = name := by
  unfold instance_match at h
  by_cases hty : mediainfo.type = MediaType.movie
  · rw [if_pos hty] at h
    rcases hdir : direct_lookup server itemid with _ | movie
    · rw [hdir] at h
      rcases hmov : server.get_movies mediainfo.title mediainfo.original_title
          mediainfo.year mediainfo.tmdb_id with _ | ⟨m, ms⟩
      · rw [hmov] at h
        exact absurd h (by simp)
      · rw [hmov] at h
        cases h
        rfl
    · rw [hdir] at h
      cases h
      rfl
  · rw [if_neg hty] at h
    rcases htv : server.get_tv_episodes mediainfo.title mediainfo.original_title
        mediainfo.year mediainfo.tmdb_id itemid with ⟨item_id, tvs⟩
    rw [htv] at h
    replace h : (if tvs.isEmpty = true then (Option.none : Option ExistMediaInfo)
        else some { type := MediaType.tv, server := name, itemid := item_id,
                    seasons := some tvs }) = some r := h
    by_cases hemp : tvs.isEmpty
    · rw [if_pos hemp] at h
      exact absurd h (by simp)
    · rw [if_neg hemp] at h
      cases h
      rfl

/-- The statistics accumulation loop never grows an empty accumulator. -/
lemma statistic_go_nil : ∀ l : List Plex, statistic_go [] l = [] := by
  intro l
  induction l with
  | nil => rfl
  | cons hd tl ih => simpa [statistic_go] using ih

/-- The connectivity-test loop never yields `none`. -/
lemma test_loop_ne_none : ∀ l : List (String × Plex), test_loop l ≠ Option.none := by
  intro l
  induction l with
  | nil => simp [test_loop]
  | cons hd tl ih =>
    obtain ⟨name, server⟩ := hd
    by_cases h : (effective_librarys server).isEmpty
    · simp [test_loop, h]
    · simp [test_loop, h, ih]

/-- The connectivity-test loop answers `(true, "")` exactly when every
listed instance reports a non-empty library listing. -/
lemma test_loop_true_iff : ∀ l : List (String × Plex),
    test_loop l = some (true, "") ↔
      ∀ p ∈ l, (effective_librarys p.2).isEmpty = false := by
  intro l
  induction l with
  | nil => simp [test_loop]
  | cons hd tl ih =>
    obtain ⟨name, server⟩ := hd
    by_cases h : (effective_librarys server).isEmpty
    · simp [test_loop, h]
      intro hcontr
      exact absurd (by simpa using h) hcontr
    · simp [test_loop, h, ih]
      intro _
      simpa using h

/-- If some listed instance reports an empty library listing, the
connectivity-test loop answers `false` with some diagnostic message. -/
lemma test_loop_false_of_mem : ∀ l : List (String × Plex),
    ∀ name server, (name, server) ∈ l → (effective_librarys server).isEmpty = true →
      ∃ m, test_loop l = some (false, m) := by
  intro l
  induction l with
  | nil => simp
  | cons hd tl ih =>
    obtain ⟨hname, hserver⟩ := hd
    intro name server hmem hempty
    by_cases hh : (effective_librarys hserver).isEmpty
    · exact ⟨"无法连接Plex服务器：" ++ hname, by simp [test_loop, hh]⟩
    · have hne : (hname, hserver) ≠ (name, server) := by
        intro hcontr
        cases hcontr
        exact hh hempty
      have hmem2 : (name, server) ∈ tl := by
        rcases List.mem_cons.mp hmem with h1 | h1
        · exact absurd h1.symm hne
        · exact h1
      obtain ⟨m, hm⟩ := ih name server hmem2 hempty
      exact ⟨m, by simp [test_loop, hh, hm]⟩

/-- The webhook fallback sweep equals the first successful decode over
the plex-typed configs, in configuration order. -/
lemma webhook_message_loop_eq (reg : Registry) (body : String) :
    ∀ cs : List MediaServerConf,
      webhook_message_loop reg body cs =
        (cs.filter fun c => c.type == "plex").findSome? fun c =>
          (get_instance reg c.name).bind fun s => s.get_webhook_message body := by
  intro cs
  induction cs with
  | nil => rfl
  | cons hd tl ih =>
    by_cases hty : hd.type = "plex"
    · rcases hinst : get_instance reg hd.name with _ | server
      · simp [webhook_message_loop, List.filter_cons, hty, List.findSome?, hinst, ih]
      · rcases hdec : server.get_webhook_message body with _ | result
        · simp [webhook_message_loop, List.filter_cons, hty, List.findSome?, hinst, hdec, ih]
        · simp [webhook_message_loop, List.filter_cons, hty, List.findSome?, hinst, hdec]
    · simp [webhook_message_loop, List.filter_cons, hty, ih]

/-- A positive `findSome?` answer is produced by some member of the
list. -/
lemma findSome?_eq_some_mem {α β : Type} (f : α → Option β) :
    ∀ (l : List α) (b : β), l.findSome? f = some b → ∃ a ∈ l, f a = some b := by
  intro l
  induction l with
  | nil => simp [List.findSome?_nil]
  | cons hd tl ih =>
    intro b h
    rw [List.findSome?_cons] at h
    rcases hf : f hd with _ | c
    · rw [hf] at h
      obtain ⟨a, ha, hfa⟩ := ih b h
      exact ⟨a, List.mem_cons_of_mem hd ha, hfa⟩
    · rw [hf] at h
      cases h
      exact ⟨hd, List.mem_cons_self hd tl, hf⟩

/-! ### Claims -/

/-- Claim C2: for every registry and every `MediaInfo` input,
`media_exists` examines instances strictly in configuration/insertion
order and returns the answer of the earliest instance that reports a
match (`List.findSome?` over `instance_match` in registry order), and
when every instance reports no match the result is `none`, returned
normally. -/
theorem media_exists_first_match_wins (reg : Registry) (mediainfo : MediaInfo)
    (itemid : Option String) :
    media_exists reg mediainfo itemid =
      reg.instances.findSome? (fun p => instance_match p.1 p.2 mediainfo itemid) ∧
    ((∀ p ∈ reg.instances, instance_match p.1 p.2 mediainfo itemid = Option.none) →
      media_exists reg mediainfo itemid = Option.none) := by
  constructor
  · exact media_exists_loop_eq mediainfo itemid reg.instances
  · intro hall
    rw [media_exists, media_exists_loop_eq mediainfo itemid reg.instances]
    have hgen : ∀ l : List (String × Plex),
        (∀ p ∈ l, instance_match p.1 p.2 mediainfo itemid = Option.none) →
        l.findSome? (fun p => instance_match p.1 p.2 mediainfo itemid) = Option.none := by
      intro l
      induction l with
      | nil => intro _; rfl
      | cons hd tl ih =>
        intro hall2
        rw [List.findSome?_cons, hall2 hd (List.mem_cons_self hd tl)]
        exact ih fun p hp => hall2 p (List.mem_cons_of_mem hd hp)
    exact hgen reg.instances hall

/-- Claim C2 witness: on the empty registry every instance (vacuously)
reports no match and the movie lookup returns `none` normally. -/
theorem media_exists_first_match_wins_witness :
    media_exists regEmpty miMovie Option.none = Option.none :=
  (media_exists_first_match_wins regEmpty miMovie Option.none).2 (by simp [regEmpty])

/-- Claim C3: on the movie path, when a truthy `itemid` is supplied and
the instance's id lookup finds an item, `media_exists` returns at once
with that instance's name and that item's id, with no title search
involved; when no truthy `itemid` is supplied or the id lookup finds
nothing, the instance is searched by (title, original_title, year,
tmdb_id) and the first hit's id is returned with the instance's name,
hits beyond the first never being inspected. -/
theorem media_exists_movie_paths (reg : Registry) (name : String) (server : Plex)
    (rest : List (String × Plex)) (mediainfo : MediaInfo) (itemid : Option String)
    (hreg : reg.instances = (name, server) :: rest)
    (hty : mediainfo.type = MediaType.movie) :
    (∀ item : MediaServerItem, strTruthy itemid = true →
      server.get_iteminfo (itemid.getD "") = some item →
      media_exists reg mediainfo itemid =
        some { type := MediaType.movie, server := name,
               itemid := some item.item_id, seasons := Option.none }) ∧
    (direct_lookup server itemid = Option.none →
      ∀ (m : MediaServerItem) (ms : List MediaServerItem),
        server.get_movies mediainfo.title mediainfo.original_title
          mediainfo.year mediainfo.tmdb_id = m :: ms →
        media_exists reg mediainfo itemid =
          some { type := MediaType.movie, server := name,
                 itemid := some m.item_id, seasons := Option.none }) := by
  constructor
  · intro item htr hfind
    rw [media_exists, hreg]
    simp [media_exists_loop, hty, direct_lookup, htr, hfind]
  · intro hdir m ms hmov
    rw [media_exists, hreg]
    simp [media_exists_loop, hty, hdir, hmov]

/-- Claim C3 witness: in a one-instance registry whose backend resolves
id `42` to item `m42` and whose title search yields `m1, m2`, the id
path answers `m42` and the search path answers the first hit `m1`. -/
theorem media_exists_movie_paths_witness :
    media_exists regRich miMovie (some "42") =
      some { type := MediaType.movie, server := "A",
             itemid := some "m42", seasons := Option.none } ∧
    media_exists regRich miMovie Option.none =
      some { type := MediaType.movie, server := "A",
             itemid := some "m1", seasons := Option.none } :=
  ⟨(media_exists_movie_paths regRich "A" plexRich [] miMovie (some "42")
      rfl rfl).1 { item_id := "m42" } rfl rfl,
   (media_exists_movie_paths regRich "A" plexRich [] miMovie Option.none
      rfl rfl).2 rfl { item_id := "m1" } [{ item_id := "m2" }] rfl⟩

/-- Claim C4: every non-`none` answer of `media_exists` carries in its
`server` field the name of an instance registered in the registry it was
produced from. -/
theorem media_exists_server_registered (reg : Registry) (mediainfo : MediaInfo)
    (itemid : Option String) (r : ExistMediaInfo)
    (h : media_exists reg mediainfo itemid = some r) :
    r.server ∈ reg.instances.map Prod.fst := by
  rw [media_exists, media_exists_loop_eq] at h
  obtain ⟨p, hp, hmatch⟩ := findSome?_eq_some_mem _ reg.instances r h
  rw [instance_match_server_eq p.1 p.2 mediainfo itemid r hmatch]
  exact List.mem_map_of_mem Prod.fst hp

/-- Claim C4 witness: the movie found in `regRich` is attributed to the
registered instance `A`. -/
theorem media_exists_server_registered_witness :
    ∃ r, media_exists regRich miMovie Option.none = some r ∧
      r.server ∈ regRich.instances.map Prod.fst :=
  ⟨_, rfl, media_exists_server_registered regRich miMovie Option.none _ rfl⟩

/-- Claim C5: a webhook call with an explicit non-empty source hint that
is not present in the registry (no plex config or no instance under that
name) answers `none`: the payload and the other registered instances are
never consulted. -/
theorem webhook_explicit_source_absent (reg : Registry) (body src : String)
    (h1 : src ≠ "")
    (h2 : get_config reg src "plex" = Option.none ∨ get_instance reg src = Option.none) :
    webhook_parse reg body (some src) = Option.none := by
  have htr : strTruthy (some src) = true := by simp [strTruthy, h1]
  rcases h2 with h2 | h2
  · simp [webhook_parse, htr, h2]
  · rcases hcfg : get_config reg src "plex" with _ | cfg
    · simp [webhook_parse, htr, hcfg]
    · simp [webhook_parse, htr, hcfg, h2]

/-- Claim C5 witness: hinting at the unregistered `B` yields `none` even
though the registered instance `A` decodes the very same payload. -/
theorem webhook_explicit_source_absent_witness :
    webhook_parse regRich "payload" (some "B") = Option.none ∧
    webhook_parse regRich "payload" (some "A") ≠ Option.none :=
  ⟨webhook_explicit_source_absent regRich "payload" "B" (by decide) (Or.inr rfl),
   by decide⟩

/-- Claim C6: a webhook call without a source hint equals the first
successful decode over the plex-typed configs in configuration order; a
config without an instance or an empty decode just moves iteration on,
and the result is `none` when nothing decodes. -/
theorem webhook_fallback_first_decode (reg : Registry) (body : String) :
    webhook_parse reg body Option.none = webhook_first_decode reg body := by
  show webhook_message_loop reg body reg.configs = _
  exact webhook_message_loop_eq reg body reg.configs

/-- Claim C7 counterexample: naming the unregistered server `B` makes
`media_statistic` answer `None`, not an empty sequence. -/
theorem media_statistic_unknown_counterexample :
    media_statistic regEmpty (some "B") = Option.none ∧
    media_statistic regEmpty (some "B") ≠ some [] := by
  refine ⟨by decide, by decide⟩

/-- Claim C7 as amended: naming a non-empty server name with no
registered instance makes `media_statistic` answer the absent value
`None` — returned normally, not raised. -/
theorem media_statistic_unknown_absent (reg : Registry) (s : String)
    (h1 : s ≠ "") (h2 : get_instance reg s = Option.none) :
    media_statistic reg (some s) = Option.none := by
  have htr : strTruthy (some s) = true := by simp [strTruthy, h1]
  simp [media_statistic, htr, h2]

/-- Claim C7 witness: the amended behaviour at the concrete unknown
name `B` on the empty registry. -/
theorem media_statistic_unknown_absent_witness :
    media_statistic regEmpty (some "B") = Option.none :=
  media_statistic_unknown_absent regEmpty "B" (by decide) rfl

/-- Claim C1 (against the code as written): the aggregation guard at
line 147 tests the accumulator `media_statistics` instead of the per
instance count `media_statistic`, so the accumulator never leaves the
empty state and the no-server call drops every instance's count — also
on the concrete registry whose only instance carries the non-empty
count record `(10, 5, 100)`. -/
theorem media_statistic_drops_all_counts :
    media_statistic regRich Option.none = some [] ∧
    ∀ reg : Registry, media_statistic reg Option.none = some [] := by
  constructor
  · rfl
  · intro reg
    simp [media_statistic, strTruthy, statistic_go_nil]

/-- Claim C8: the connectivity test answers `None` on an empty registry,
answers `false` with a diagnostic whenever some registered instance
cannot list its libraries, and answers `(true, "")` exactly when the
registry is non-empty and every registered instance lists libraries
successfully. -/
theorem test_connectivity_spec (reg : Registry) :
    (reg.instances = [] → test reg = Option.none) ∧
    (∀ name server, (name, server) ∈ reg.instances →
      (effective_librarys server).isEmpty = true →
      ∃ m, test reg = some (false, m)) ∧
    (test reg = some (true, "") ↔
      reg.instances ≠ [] ∧
        ∀ p ∈ reg.instances, (effective_librarys p.2).isEmpty = false) := by
  refine ⟨?_, ?_, ?_⟩
  · intro h
    simp [test, h]
  · intro name server hmem hemp
    have hne : reg.instances.isEmpty = false := by
      cases hl : reg.instances with
      | nil => rw [hl] at hmem; simp at hmem
      | cons a l => simp
    obtain ⟨m, hm⟩ := test_loop_false_of_mem reg.instances name server hmem hemp
    exact ⟨m, by simp [test, hne, hm]⟩
  · constructor
    · intro h
      have hne : reg.instances ≠ [] := by
        intro hnil
        rw [test, hnil] at h
        simp at h
      refine ⟨hne, ?_⟩
      have hloop : test_loop reg.instances = some (true, "") := by
        by_cases hi : reg.instances.isEmpty
        · exact absurd (by simpa using hi) hne
        · rw [test, if_neg (by simpa using hi)] at h
          exact h
      exact (test_loop_true_iff reg.instances).mp hloop
    · rintro ⟨hne, hall⟩
      have hi : reg.instances.isEmpty = false := by
        cases hl : reg.instances with
        | nil => exact absurd hl hne
        | cons a l => simp
      rw [test, hi]
      show test_loop reg.instances = some (true, "")
      exact (test_loop_true_iff reg.instances).mpr hall

/-- Claim C8 witness: `None` on the empty registry, `false` with a
diagnostic when the only instance lists no library, `(true, "")` when
the only instance lists one. -/
theorem test_connectivity_spec_witness :
    test regEmpty = Option.none ∧
    (∃ m, test regSilent = some (false, m)) ∧
    test regRich = some (true, "") :=
  ⟨(test_connectivity_spec regEmpty).1 rfl,
   (test_connectivity_spec regSilent).2.1 "A" plexSilent
     (List.mem_cons_self _ _) rfl,
   (test_connectivity_spec regRich).2.2.mpr
     ⟨by simp [regRich], by
        intro p hp
        simp [regRich] at hp
        rw [hp]
        decide⟩⟩

/-- Claim C9: each single-instance passthrough (item info, TV episodes,
playing/resume list, latest list, play URL), called with a server name
that has no registered instance, answers its empty or absent value with
no backend involved. -/
theorem passthrough_absent_instance (reg : Registry) (name item_id : String)
    (n : Nat) (h : get_instance reg name = Option.none) :
    mediaserver_iteminfo reg name item_id = Option.none ∧
    mediaserver_tv_episodes reg name item_id = Option.none ∧
    mediaserver_playing reg name n = [] ∧
    mediaserver_latest reg name n = [] ∧
    mediaserver_play_url reg name item_id = Option.none := by
  refine ⟨?_, ?_, ?_, ?_, ?_⟩ <;>
    simp [mediaserver_iteminfo, mediaserver_tv_episodes, mediaserver_playing,
      mediaserver_latest, mediaserver_play_url, h]

/-- Claim C9 witness: all five passthroughs at the unknown name `X` on
the empty registry. -/
theorem passthrough_absent_instance_witness :
    mediaserver_iteminfo regEmpty "X" "9" = Option.none ∧
    mediaserver_tv_episodes regEmpty "X" "9" = Option.none ∧
    mediaserver_playing regEmpty "X" 20 = [] ∧
    mediaserver_latest regEmpty "X" 20 = [] ∧
    mediaserver_play_url regEmpty "X" "9" = Option.none :=
  passthrough_absent_instance regEmpty "X" "9" 20 rfl

/-- Claim C10 counterexample: the truthy non-string, non-dict value
`[1]` is passed through unchanged, so the validator's answer is not a
dict. -/
theorem parse_json_fields_not_dict :
    parse_json_fields loadsDemo (PyValue.pylist [PyValue.pyint 1]) =
      PyValue.pylist [PyValue.pyint 1] ∧
    isPyDict (parse_json_fields loadsDemo (PyValue.pylist [PyValue.pyint 1])) =
      false :=
  ⟨rfl, rfl⟩

/-- Claim C10 as amended: the validator never fails — a falsy value
yields the empty dict, a truthy string yields the parsed value when
parsing succeeds (not necessarily a dict) and the empty dict when it
fails, and any other truthy value is passed through unchanged (so the
answer need not be a dict). -/
theorem parse_json_fields_spec (loads : String → Option PyValue) (value : PyValue) :
    (truthy value = false → parse_json_fields loads value = PyValue.pydict []) ∧
    (∀ s v, s ≠ "" → loads s = some v →
      parse_json_fields loads (PyValue.pystr s) = v) ∧
    (∀ s, s ≠ "" → loads s = Option.none →
      parse_json_fields loads (PyValue.pystr s) = PyValue.pydict []) ∧
    (truthy value = true → isPyStr value = false →
      parse_json_fields loads value = value) := by
  refine ⟨?_, ?_, ?_, ?_⟩
  · intro h
    simp [parse_json_fields, h]
  · intro s v hs hl
    have ht : truthy (PyValue.pystr s) = true := by simp [truthy, hs]
    simp [parse_json_fields, ht, hl]
  · intro s hs hl
    have ht : truthy (PyValue.pystr s) = true := by simp [truthy, hs]
    simp [parse_json_fields, ht, hl]
  · intro ht hstr
    cases value <;> simp_all [parse_json_fields, isPyStr, truthy]

/-- Claim C10 witness: the empty string, the parseable literal
`[1,2]`, the unparseable literal `oops`, and a truthy list, under a
concrete parsing oracle. -/
theorem parse_json_fields_spec_witness :
    parse_json_fields loadsDemo (PyValue.pystr "") = PyValue.pydict [] ∧
    parse_json_fields loadsDemo (PyValue.pystr "[1,2]") =
      PyValue.pylist [PyValue.pyint 1, PyValue.pyint 2] ∧
    parse_json_fields loadsDemo (PyValue.pystr "oops") = PyValue.pydict [] ∧
    parse_json_fields loadsDemo (PyValue.pylist [PyValue.pyint 3]) =
      PyValue.pylist [PyValue.pyint 3] :=
  ⟨(parse_json_fields_spec loadsDemo (PyValue.pystr "")).1 rfl,
   (parse_json_fields_spec loadsDemo (PyValue.pystr "[1,2]")).2.1 "[1,2]"
     (PyValue.pylist [PyValue.pyint 1, PyValue.pyint 2]) (by decide) rfl,
   (parse_json_fields_spec loadsDemo (PyValue.pystr "oops")).2.2.1 "oops"
     (by decide) rfl,
   (parse_json_fields_spec loadsDemo (PyValue.pylist [PyValue.pyint 3])).2.2.2
     rfl rfl⟩

end MoviePilot
